import Mathlib

/-!
Verification of the kata-shim entry point (`src/main.go`) against its
natural-language specification.

The entry point `realMain` is embedded shallowly as a trace-producing
interpreter: every externally visible action of the run (log emissions,
span start/finish, the agent connection attempt, terminal raw-mode
acquisition and restoration, stdio proxying, the WaitGroup join barrier,
the remote wait call, tracer shutdown and process exit) becomes an `Event`
in the produced trace, and every fallible external call is resolved by an
oracle recorded in the `Env` structure.

Functions of this repository that live outside `src/main.go` (`newShim`,
`proxyStdio`, `shim.wait`, `setupTerminal`, `restoreTerminal`,
`handleSignals`, `createTracer`, `trace`, `stopTracing`, `handlePanic`)
are modelled at their call boundary, following the specification:
`newShim` is the agent connection attempt (spec section 4.4, transition
created-to-connecting), `proxyStdio` starts the stdio copy tasks and the
subsequent `wg.Wait` is the join barrier that completes only once every
copy task has finished (spec sections 4.2 and 5), `shim.wait` is the
remote wait-for-exit call and its outcome is the oracle `waitResult`,
`setupTerminal` acquires raw mode (succeeding iff stdin is a real
terminal, recorded in the oracle `setupTerminalOk`) and `restoreTerminal`
releases it.

Go control flow is embedded explicitly. Deferred calls registered on each
path are appended, last-in-first-out, to the trace of every return that
follows their registration. The `logger().WithError(err).Fatal` call at
`main.go` line 164 follows logrus semantics: `Fatal` logs and then calls
`os.Exit(1)` directly, so the `return exitFailure` on line 165 is dead
code, no deferred call runs, and control never comes back to `main`
(exit mode `fatal`). A process-level panic is modelled by an oracle that
selects the call during which the panic, if any, is raised: the panic
unwinds `realMain`, running exactly the deferred calls registered at that
point in last-in-first-out order, skips the rest of `main` (including
`stopTracing` on line 237) and is caught by `main`'s deferred
`handlePanic` (exit mode `panicked`).
-/

namespace KataShim

/-- Constants from `src/main.go` lines 26-35. -/
def shimName : String := "kata-shim"

def exitFailure : Int := 1

def exitSuccess : Int := 0

/-- Max number of threads the shim should consume (`main.go` line 34). -/
def maxThreads : Nat := 6

/-- Externally visible actions of a run of the shim entry point, in the
order they are performed. -/
inductive Event where
  | setThreadsEv
  | printVersion (s : String)
  | configErrorLog
  | announceLog
  | invalidLogLevelLog
  | fatalTracingLog
  | startSpan (name : String)
  | finishSpan (name : String)
  | newShimCall
  | shimCreateErrorLog
  | setupTerminalCall
  | rawAcquired
  | terminalErrorLog
  | restoreTerminalCall
  | handleSignalsCall
  | signalStopCall
  | setTag (key value : String)
  | proxyStdioCall
  | wgWait
  | shimWaitCall
  | waitErrorLog
  | proxyExitLog
  | stopTracingCall
  | panicEv
  | handlePanicEv
  | osExitEv (code : Int)
  deriving DecidableEq, Repr

/-- How a run of `realMain` ends. `returned` is an ordinary Go `return`:
control comes back to `main`, which then runs `stopTracing` and
`os.Exit`. `fatal` is the logrus `Fatal` call at `main.go` line 164,
which logs and then calls `os.Exit(1)` directly: the `return exitFailure`
on line 165 is dead code, no deferred call runs, and `stopTracing` on
line 237 is never reached. `panicked` is a process-level panic raised
inside `realMain`: the panic unwinds `realMain`, running its registered
deferred calls in last-in-first-out order, skips the rest of `main`
(including `stopTracing`) and is caught by `main`'s deferred
`handlePanic`. -/
inductive ExitMode where
  | returned
  | fatal
  | panicked
  deriving DecidableEq, Repr

/-- Modelled from the spec: `handlePanic` (deferred in `main`, defined
outside `src/main.go`) is the top-level recovery boundary of spec
section 9, and a panic may be raised by any code the entry point calls.
This oracle selects the call during which the panic, if any, is raised.
The three points cover every configuration of deferred calls registered
on the session path: inside `newShim` only the root-span finish is
registered; inside `handleSignals` the terminal restore (when raw mode
was acquired) is also registered; during the stdio-proxy phase
(`proxyStdio` and `wg.Wait`, and identically the later blocking wait,
which has the same registered defers) the `signal.Stop` defer is
registered as well. -/
inductive PanicPoint where
  | inNewShim
  | inHandleSignals
  | inProxyStdio
  deriving DecidableEq, Repr

/-- The environment of one run: the parsed command-line flags (after
`flag.Parse`, `main.go` lines 113-124), the build-time `version` variable,
the host facts read by `setThreads`, and oracles resolving each fallible
external call made by `realMain`. -/
structure Env where
  version : String
  gomaxprocsEnv : String
  numCPU : Nat
  debugFlag : Bool
  traceFlag : Bool
  showVersion : Bool
  logLevel : String
  agentAddr : String
  container : String
  execID : String
  terminal : Bool
  proxyExitCode : Bool
  /-- whether `logrus.ParseLevel logLevel` succeeds inside `initLogger` -/
  logLevelValid : Bool
  /-- whether `createTracer` succeeds -/
  createTracerOk : Bool
  /-- whether `newShim` (the agent connection attempt) succeeds -/
  newShimOk : Bool
  /-- whether `setupTerminal` succeeds, i.e. stdin is a real terminal -/
  setupTerminalOk : Bool
  /-- outcome of the remote `shim.wait` call: exit code or error -/
  waitResult : Except Unit Int
  /-- the call, if any, during which a process-level panic is raised -/
  panicAt : Option PanicPoint

/-- Result of a run of `realMain`: the exit code, the event trace, the
final values of the globals `debug` and `crashOnError` (`main.go` lines
40-43) and the exit mode. In mode `fatal` the exit code is the 1 passed
to `os.Exit` by logrus; in mode `panicked` it is the fatal exit code the
recovery boundary translates the panic to (modelled from spec
section 9). -/
structure RunResult where
  exitCode : Int
  trace : List Event
  debugVar : Bool
  crashOnError : Bool
  mode : ExitMode
  deriving Repr

/-- Modelled from the source (`setThreads`, `main.go` lines 87-98): the
value GOMAXPROCS is set to, if any. If the GOMAXPROCS environment
variable is unset and the CPU count exceeds `maxThreads`, GOMAXPROCS is
set to `maxThreads`; otherwise it is left untouched. -/
def setThreadsResult (gomaxprocsEnv : String) (numCPU : Nat) : Option Nat :=
  if gomaxprocsEnv = "" then
    if numCPU > maxThreads then some maxThreads else none
  else none

/-- The value of the global `debug` after `main.go` lines 131-133: the
`-debug` flag, forced on when the log level argument is "debug". -/
def debugAfterFlags (env : Env) : Bool :=
  env.debugFlag || (env.logLevel == "debug")

/-- The tail of `realMain` from the signal handling (`main.go` line 190)
to the end (line 227): signal handler start, the stdio-proxy span, the
`proxyStdio` call, the `wg.Wait` join barrier, and the remote wait with
its exit-code policy. `pre` is the trace so far, `defers` the deferred
calls already registered (in execution, i.e. reverse-registration,
order); `signal.Stop` (line 191) is registered here as the newest defer.
A panic raised inside `handleSignals` unwinds before `signal.Stop` is
registered; a panic raised during the stdio-proxy phase unwinds all three
defers and never finishes the stdio span (which is finished by a plain
call on line 212, not a defer). Modelled from the spec for the parts
outside `main.go`: `wg.Wait` returns only once every stdio copy task
started by `proxyStdio` has finished (sections 4.2 and 5), embodied as
the single `wgWait` barrier event. -/
def realMainTail (env : Env) (debugV : Bool) (pre defers : List Event) :
    RunResult :=
  let pre := pre ++ [Event.handleSignalsCall]
  if env.panicAt = some PanicPoint.inHandleSignals then
    { exitCode := exitFailure, trace := pre ++ [Event.panicEv] ++ defers,
      debugVar := debugV, crashOnError := debugV,
      mode := ExitMode.panicked }
  else
    let defers := Event.signalStopCall :: defers
    let pre := pre ++ [Event.startSpan ("proxyStdio"),
      Event.setTag ("category") ("interactive"), Event.proxyStdioCall]
    if env.panicAt = some PanicPoint.inProxyStdio then
      { exitCode := exitFailure, trace := pre ++ [Event.panicEv] ++ defers,
        debugVar := debugV, crashOnError := debugV,
        mode := ExitMode.panicked }
    else
      let pre := pre ++ [Event.wgWait, Event.finishSpan ("proxyStdio"),
        Event.shimWaitCall]
      match env.waitResult with
      | Except.error _ =>
        { exitCode := exitFailure,
          trace := pre ++ [Event.waitErrorLog] ++ defers,
          debugVar := debugV, crashOnError := debugV,
          mode := ExitMode.returned }
      | Except.ok code =>
        if env.proxyExitCode then
          if code ≠ 0 then
            { exitCode := code,
              trace := pre ++ [Event.proxyExitLog] ++ defers,
              debugVar := debugV, crashOnError := debugV,
              mode := ExitMode.returned }
          else
            { exitCode := exitSuccess,
              trace := pre ++ [Event.proxyExitLog] ++ defers,
              debugVar := debugV, crashOnError := debugV,
              mode := ExitMode.returned }
        else
          { exitCode := exitSuccess, trace := pre ++ defers,
            debugVar := debugV, crashOnError := debugV,
            mode := ExitMode.returned }

/-- The entry point `realMain` (`main.go` lines 100-227), embedded as a
function from the run environment to exit code, event trace, final
global-variable values and exit mode. Each `return` path appends the
deferred calls registered up to that point in last-in-first-out order,
following Go `defer` semantics; the `Fatal` path exits the process
directly, running no defers; a panic path appends the panic event and
then the registered defers, unwound. -/
def realMain (env : Env) : RunResult :=
  let pre : List Event := [Event.setThreadsEv]
  if env.showVersion then
    { exitCode := exitSuccess,
      trace := pre ++
        [Event.printVersion (shimName ++ " version " ++ env.version)],
      debugVar := env.debugFlag, crashOnError := false,
      mode := ExitMode.returned }
  else
    let debugV := debugAfterFlags env
    let crashV := debugV
    if env.agentAddr = "" ∨ env.container = "" ∨ env.execID = "" then
      { exitCode := exitFailure, trace := pre ++ [Event.configErrorLog],
        debugVar := debugV, crashOnError := crashV,
        mode := ExitMode.returned }
    else if env.logLevelValid = false then
      { exitCode := exitFailure, trace := pre ++ [Event.invalidLogLevelLog],
        debugVar := debugV, crashOnError := crashV,
        mode := ExitMode.returned }
    else
      let pre := pre ++ [Event.announceLog]
      if env.createTracerOk = false then
        { exitCode := exitFailure, trace := pre ++ [Event.fatalTracingLog],
          debugVar := debugV, crashOnError := crashV,
          mode := ExitMode.fatal }
      else
        let pre := pre ++ [Event.startSpan ("realMain"), Event.newShimCall]
        if env.panicAt = some PanicPoint.inNewShim then
          { exitCode := exitFailure,
            trace := pre ++ [Event.panicEv, Event.finishSpan ("realMain")],
            debugVar := debugV, crashOnError := crashV,
            mode := ExitMode.panicked }
        else if env.newShimOk = false then
          { exitCode := exitFailure,
            trace := pre ++ [Event.shimCreateErrorLog,
              Event.finishSpan ("realMain")],
            debugVar := debugV, crashOnError := crashV,
            mode := ExitMode.returned }
        else if env.terminal then
          let pre := pre ++ [Event.setupTerminalCall]
          if env.setupTerminalOk = false then
            { exitCode := exitFailure,
              trace := pre ++ [Event.terminalErrorLog,
                Event.finishSpan ("realMain")],
              debugVar := debugV, crashOnError := crashV,
              mode := ExitMode.returned }
          else
            realMainTail env debugV (pre ++ [Event.rawAcquired])
              [Event.restoreTerminalCall, Event.finishSpan ("realMain")]
        else
          realMainTail env debugV pre [Event.finishSpan ("realMain")]

/-- The process `main` (`main.go` lines 229-240). When `realMain` returns,
`main` runs `stopTracing` and then `os.Exit` with the returned code. When
`realMain` exited the process via the logrus `Fatal` (line 164), the
`os.Exit(1)` inside logrus terminates the process with no deferred call
and without `stopTracing`. When `realMain` panicked, its own defers have
already unwound (they are in the trace), `stopTracing` on line 237 is
skipped because control never reaches it, and `main`'s deferred
`handlePanic` catches the panic; the process then terminates inside that
recovery boundary, whose body lies outside `src/main.go`. -/
def mainRun (env : Env) : List Event :=
  let r := realMain env
  match r.mode with
  | ExitMode.returned =>
    r.trace ++ [Event.stopTracingCall, Event.osExitEv r.exitCode]
  | ExitMode.fatal => r.trace ++ [Event.osExitEv r.exitCode]
  | ExitMode.panicked => r.trace ++ [Event.handlePanicEv]

/-- The final process exit code of a run of `main`. -/
def mainExit (env : Env) : Int := (realMain env).exitCode

/-- The prefix of a trace strictly before the first occurrence of `e`
(the whole trace if `e` never occurs). -/
def upTo (e : Event) : List Event → List Event
  | [] => []
  | x :: xs => if x = e then [] else x :: upTo e xs

/-- The events of a run that reaches the signal-handling phase, up to and
including the `newShim` connection and (when the terminal flag is set) the
raw-mode acquisition. -/
def sessionPre (term : Bool) : List Event :=
  [Event.setThreadsEv, Event.announceLog, Event.startSpan ("realMain"),
    Event.newShimCall] ++
  (if term then [Event.setupTerminalCall, Event.rawAcquired] else [])

/-- The deferred calls registered before the signal-handling phase, in
execution (last-in-first-out) order: the terminal restore (when raw mode
was acquired) runs before the root span finishes. -/
def sessionDefers (term : Bool) : List Event :=
  (if term then [Event.restoreTerminalCall] else []) ++
  [Event.finishSpan ("realMain")]

/-- The common shape of the trace of every run that completes the stdio
and wait phases: `term` records whether the terminal flag was set (adding
the raw-mode acquisition and its deferred restore), `mid` is the event
emitted between the remote wait returning and the deferred calls running
(the wait-error log, the proxy-exit-code log, or nothing). -/
def sessionTrace (term : Bool) (mid : List Event) : List Event :=
  [Event.setThreadsEv, Event.announceLog, Event.startSpan ("realMain"),
    Event.newShimCall] ++
  (if term then [Event.setupTerminalCall, Event.rawAcquired] else []) ++
  [Event.handleSignalsCall, Event.startSpan ("proxyStdio"),
    Event.setTag ("category") ("interactive"), Event.proxyStdioCall,
    Event.wgWait, Event.finishSpan ("proxyStdio"), Event.shimWaitCall] ++
  mid ++ [Event.signalStopCall] ++
  (if term then [Event.restoreTerminalCall] else []) ++
  [Event.finishSpan ("realMain")]

/-- The trace of a run that panics inside `handleSignals`: `signal.Stop`
is not yet deferred, so unwinding runs only the terminal restore (when
raw mode was acquired) and the root-span finish. -/
def panicSigTrace (term : Bool) : List Event :=
  sessionPre term ++ [Event.handleSignalsCall, Event.panicEv] ++
    sessionDefers term

/-- The trace of a run that panics during the stdio-proxy phase: all
registered defers unwind, and the stdio span is never finished (it is
finished by a plain call on `main.go` line 212, not a defer). -/
def panicProxyTrace (term : Bool) : List Event :=
  sessionPre term ++ [Event.handleSignalsCall,
    Event.startSpan ("proxyStdio"), Event.setTag ("category") ("interactive"),
    Event.proxyStdioCall, Event.panicEv, Event.signalStopCall] ++
    sessionDefers term

/-- A fully valid baseline run environment: non-empty configuration, no
terminal, exit-code proxying enabled, every external call succeeding, no
panic, and the remote process exiting with code 17. -/
def envOK : Env where
  version := "unknown"
  gomaxprocsEnv := ""
  numCPU := 4
  debugFlag := false
  traceFlag := false
  showVersion := false
  logLevel := "warn"
  agentAddr := "unix:///run/agent.sock"
  container := "c1"
  execID := "e1"
  terminal := false
  proxyExitCode := true
  logLevelValid := true
  createTracerOk := true
  newShimOk := true
  setupTerminalOk := true
  waitResult := Except.ok 17
  panicAt := none

/-- The baseline run with the terminal flag set while stdin is not a real
terminal device, so that `setupTerminal` fails. -/
def envTermFail : Env :=
  { envOK with terminal := true, setupTerminalOk := false }

/-- A run invoked with the version flag and an empty agent address (the
usual way to print the version: no other flags are given, so `agentAddr`
keeps its empty default). -/
def envVersionEmpty : Env :=
  { envOK with showVersion := true, agentAddr := "" }

/-- The baseline run with an empty agent address and no version flag. -/
def envEmptyAddr : Env :=
  { envOK with agentAddr := "" }

/-- The baseline run in which the remote wait call fails. -/
def envWaitErr : Env :=
  { envOK with waitResult := Except.error () }

/-- The baseline run invoked with the version flag. -/
def envVersion : Env :=
  { envOK with showVersion := true }

/-- A run invoked with the version flag together with log level "debug"
and the debug flag left off. -/
def envVersionDebug : Env :=
  { envOK with showVersion := true, logLevel := "debug", debugFlag := false }

/-- The baseline run with log level "debug" and the debug flag left off. -/
def envDebugLevel : Env :=
  { envOK with logLevel := "debug", debugFlag := false }

/-- The baseline run in which tracer creation fails. -/
def envTracerFail : Env :=
  { envOK with createTracerOk := false }

lemma realMainTail_panic_signals (env : Env) (d : Bool)
    (pre defers : List Event)
    (hp : env.panicAt = some PanicPoint.inHandleSignals) :
    realMainTail env d pre defers =
      { exitCode := exitFailure,
        trace := pre ++ [Event.handleSignalsCall, Event.panicEv] ++ defers,
        debugVar := d, crashOnError := d, mode := ExitMode.panicked } := by
  simp [realMainTail, hp]

lemma realMainTail_panic_proxy (env : Env) (d : Bool)
    (pre defers : List Event)
    (hp : env.panicAt = some PanicPoint.inProxyStdio) :
    realMainTail env d pre defers =
      { exitCode := exitFailure,
        trace := pre ++ [Event.handleSignalsCall,
          Event.startSpan ("proxyStdio"),
          Event.setTag ("category") ("interactive"), Event.proxyStdioCall,
          Event.panicEv, Event.signalStopCall] ++ defers,
        debugVar := d, crashOnError := d, mode := ExitMode.panicked } := by
  simp [realMainTail, hp]

lemma realMainTail_err (env : Env) (d : Bool) (pre defers : List Event)
    (u : Unit) (h1 : env.panicAt ≠ some PanicPoint.inHandleSignals)
    (h2 : env.panicAt ≠ some PanicPoint.inProxyStdio)
    (hw : env.waitResult = Except.error u) :
    realMainTail env d pre defers =
      { exitCode := exitFailure,
        trace := pre ++ [Event.handleSignalsCall,
          Event.startSpan ("proxyStdio"),
          Event.setTag ("category") ("interactive"), Event.proxyStdioCall,
          Event.wgWait, Event.finishSpan ("proxyStdio"), Event.shimWaitCall,
          Event.waitErrorLog, Event.signalStopCall] ++ defers,
        debugVar := d, crashOnError := d, mode := ExitMode.returned } := by
  simp [realMainTail, h1, h2, hw]

lemma realMainTail_ok_proxy (env : Env) (d : Bool) (pre defers : List Event)
    (c : Int) (h1 : env.panicAt ≠ some PanicPoint.inHandleSignals)
    (h2 : env.panicAt ≠ some PanicPoint.inProxyStdio)
    (hw : env.waitResult = Except.ok c) (hp : env.proxyExitCode = true) :
    realMainTail env d pre defers =
      { exitCode := (if c = 0 then exitSuccess else c),
        trace := pre ++ [Event.handleSignalsCall,
          Event.startSpan ("proxyStdio"),
          Event.setTag ("category") ("interactive"), Event.proxyStdioCall,
          Event.wgWait, Event.finishSpan ("proxyStdio"), Event.shimWaitCall,
          Event.proxyExitLog, Event.signalStopCall] ++ defers,
        debugVar := d, crashOnError := d, mode := ExitMode.returned } := by
  by_cases hc : c = 0 <;> simp [realMainTail, h1, h2, hw, hp, hc]

lemma realMainTail_ok_silent (env : Env) (d : Bool) (pre defers : List Event)
    (c : Int) (h1 : env.panicAt ≠ some PanicPoint.inHandleSignals)
    (h2 : env.panicAt ≠ some PanicPoint.inProxyStdio)
    (hw : env.waitResult = Except.ok c) (hp : env.proxyExitCode = false) :
    realMainTail env d pre defers =
      { exitCode := exitSuccess,
        trace := pre ++ [Event.handleSignalsCall,
          Event.startSpan ("proxyStdio"),
          Event.setTag ("category") ("interactive"), Event.proxyStdioCall,
          Event.wgWait, Event.finishSpan ("proxyStdio"), Event.shimWaitCall,
          Event.signalStopCall] ++ defers,
        debugVar := d, crashOnError := d, mode := ExitMode.returned } := by
  simp [realMainTail, h1, h2, hw, hp]

lemma realMainTail_vars (env : Env) (d : Bool) (pre defers : List Event) :
    (realMainTail env d pre defers).debugVar = d ∧
    (realMainTail env d pre defers).crashOnError = d := by
  by_cases h1 : env.panicAt = some PanicPoint.inHandleSignals
  · rw [realMainTail_panic_signals env d pre defers h1]
    exact ⟨rfl, rfl⟩
  by_cases h2 : env.panicAt = some PanicPoint.inProxyStdio
  · rw [realMainTail_panic_proxy env d pre defers h2]
    exact ⟨rfl, rfl⟩
  rcases hw : env.waitResult with u | c
  · rw [realMainTail_err env d pre defers u h1 h2 hw]
    exact ⟨rfl, rfl⟩
  · by_cases hp : env.proxyExitCode = true
    · rw [realMainTail_ok_proxy env d pre defers c h1 h2 hw hp]
      exact ⟨rfl, rfl⟩
    · rw [Bool.not_eq_true] at hp
      rw [realMainTail_ok_silent env d pre defers c h1 h2 hw hp]
      exact ⟨rfl, rfl⟩

lemma realMain_version (env : Env) (hv : env.showVersion = true) :
    realMain env =
      { exitCode := exitSuccess,
        trace := [Event.setThreadsEv,
          Event.printVersion (shimName ++ " version " ++ env.version)],
        debugVar := env.debugFlag, crashOnError := false,
        mode := ExitMode.returned } := by
  simp [realMain, hv]

lemma realMain_empty_config (env : Env) (hv : env.showVersion = false)
    (he : env.agentAddr = "" ∨ env.container = "" ∨ env.execID = "") :
    realMain env =
      { exitCode := exitFailure,
        trace := [Event.setThreadsEv, Event.configErrorLog],
        debugVar := debugAfterFlags env,
        crashOnError := debugAfterFlags env,
        mode := ExitMode.returned } := by
  simp [realMain, hv, he]

lemma realMain_bad_loglevel (env : Env) (hv : env.showVersion = false)
    (he : ¬(env.agentAddr = "" ∨ env.container = "" ∨ env.execID = ""))
    (hl : env.logLevelValid = false) :
    realMain env =
      { exitCode := exitFailure,
        trace := [Event.setThreadsEv, Event.invalidLogLevelLog],
        debugVar := debugAfterFlags env,
        crashOnError := debugAfterFlags env,
        mode := ExitMode.returned } := by
  simp [realMain, hv, he, hl]

lemma realMain_tracer_failure (env : Env) (hv : env.showVersion = false)
    (he : ¬(env.agentAddr = "" ∨ env.container = "" ∨ env.execID = ""))
    (hl : env.logLevelValid = true) (hc : env.createTracerOk = false) :
    realMain env =
      { exitCode := exitFailure,
        trace := [Event.setThreadsEv, Event.announceLog,
          Event.fatalTracingLog],
        debugVar := debugAfterFlags env,
        crashOnError := debugAfterFlags env,
        mode := ExitMode.fatal } := by
  simp [realMain, hv, he, hl, hc]

lemma realMain_panic_connect (env : Env) (hv : env.showVersion = false)
    (he : ¬(env.agentAddr = "" ∨ env.container = "" ∨ env.execID = ""))
    (hl : env.logLevelValid = true) (hc : env.createTracerOk = true)
    (hp : env.panicAt = some PanicPoint.inNewShim) :
    realMain env =
      { exitCode := exitFailure,
        trace := [Event.setThreadsEv, Event.announceLog,
          Event.startSpan ("realMain"), Event.newShimCall, Event.panicEv,
          Event.finishSpan ("realMain")],
        debugVar := debugAfterFlags env,
        crashOnError := debugAfterFlags env,
        mode := ExitMode.panicked } := by
  simp [realMain, hv, he, hl, hc, hp]

lemma realMain_connect_failure (env : Env) (hv : env.showVersion = false)
    (he : ¬(env.agentAddr = "" ∨ env.container = "" ∨ env.execID = ""))
    (hl : env.logLevelValid = true) (hc : env.createTracerOk = true)
    (hpn : env.panicAt ≠ some PanicPoint.inNewShim)
    (hn : env.newShimOk = false) :
    realMain env =
      { exitCode := exitFailure,
        trace := [Event.setThreadsEv, Event.announceLog,
          Event.startSpan ("realMain"), Event.newShimCall,
          Event.shimCreateErrorLog, Event.finishSpan ("realMain")],
        debugVar := debugAfterFlags env,
        crashOnError := debugAfterFlags env,
        mode := ExitMode.returned } := by
  simp [realMain, hv, he, hl, hc, hpn, hn]

lemma realMain_terminal_failure (env : Env) (hv : env.showVersion = false)
    (he : ¬(env.agentAddr = "" ∨ env.container = "" ∨ env.execID = ""))
    (hl : env.logLevelValid = true) (hc : env.createTracerOk = true)
    (hpn : env.panicAt ≠ some PanicPoint.inNewShim)
    (hn : env.newShimOk = true) (ht : env.terminal = true)
    (hs : env.setupTerminalOk = false) :
    realMain env =
      { exitCode := exitFailure,
        trace := [Event.setThreadsEv, Event.announceLog,
          Event.startSpan ("realMain"), Event.newShimCall,
          Event.setupTerminalCall, Event.terminalErrorLog,
          Event.finishSpan ("realMain")],
        debugVar := debugAfterFlags env,
        crashOnError := debugAfterFlags env,
        mode := ExitMode.returned } := by
  simp [realMain, hv, he, hl, hc, hpn, hn, ht, hs]

lemma realMain_session (env : Env) (hv : env.showVersion = false)
    (he : ¬(env.agentAddr = "" ∨ env.container = "" ∨ env.execID = ""))
    (hl : env.logLevelValid = true) (hc : env.createTracerOk = true)
    (hn : env.newShimOk = true)
    (hpn : env.panicAt ≠ some PanicPoint.inNewShim)
    (hterm : env.terminal = true → env.setupTerminalOk = true) :
    realMain env = realMainTail env (debugAfterFlags env)
      (sessionPre env.terminal) (sessionDefers env.terminal) := by
  by_cases ht : env.terminal = true
  · have hs := hterm ht
    simp [realMain, hv, he, hl, hc, hpn, hn, ht, hs, sessionPre,
      sessionDefers]
  · rw [Bool.not_eq_true] at ht
    simp [realMain, hv, he, hl, hc, hpn, hn, ht, sessionPre, sessionDefers]

lemma realMain_trace_shape (env : Env) :
    (realMain env).trace =
      [Event.setThreadsEv,
        Event.printVersion (shimName ++ " version " ++ env.version)] ∨
    (realMain env).trace = [Event.setThreadsEv, Event.configErrorLog] ∨
    (realMain env).trace = [Event.setThreadsEv, Event.invalidLogLevelLog] ∨
    (realMain env).trace =
      [Event.setThreadsEv, Event.announceLog, Event.fatalTracingLog] ∨
    (realMain env).trace =
      [Event.setThreadsEv, Event.announceLog, Event.startSpan ("realMain"),
        Event.newShimCall, Event.shimCreateErrorLog,
        Event.finishSpan ("realMain")] ∨
    (realMain env).trace =
      [Event.setThreadsEv, Event.announceLog, Event.startSpan ("realMain"),
        Event.newShimCall, Event.setupTerminalCall, Event.terminalErrorLog,
        Event.finishSpan ("realMain")] ∨
    (realMain env).trace =
      [Event.setThreadsEv, Event.announceLog, Event.startSpan ("realMain"),
        Event.newShimCall, Event.panicEv, Event.finishSpan ("realMain")] ∨
    (∃ term, (realMain env).trace = panicSigTrace term) ∨
    (∃ term, (realMain env).trace = panicProxyTrace term) ∨
    ∃ term mid, (mid = [Event.waitErrorLog] ∨ mid = [Event.proxyExitLog] ∨
      mid = ([] : List Event)) ∧ (realMain env).trace = sessionTrace term mid := by
  by_cases hv : env.showVersion = true
  · exact Or.inl (by rw [realMain_version env hv])
  rw [Bool.not_eq_true] at hv
  by_cases he : env.agentAddr = "" ∨ env.container = "" ∨ env.execID = ""
  · exact Or.inr (Or.inl (by rw [realMain_empty_config env hv he]))
  by_cases hl : env.logLevelValid = false
  · exact Or.inr (Or.inr (Or.inl (by rw [realMain_bad_loglevel env hv he hl])))
  rw [Bool.not_eq_false] at hl
  by_cases hc : env.createTracerOk = false
  · exact Or.inr (Or.inr (Or.inr (Or.inl
      (by rw [realMain_tracer_failure env hv he hl hc]))))
  rw [Bool.not_eq_false] at hc
  by_cases hpn : env.panicAt = some PanicPoint.inNewShim
  · exact Or.inr (Or.inr (Or.inr (Or.inr (Or.inr (Or.inr (Or.inl
      (by rw [realMain_panic_connect env hv he hl hc hpn])))))))
  by_cases hn : env.newShimOk = false
  · exact Or.inr (Or.inr (Or.inr (Or.inr (Or.inl
      (by rw [realMain_connect_failure env hv he hl hc hpn hn])))))
  rw [Bool.not_eq_false] at hn
  by_cases hts : env.terminal = true ∧ env.setupTerminalOk = false
  · exact Or.inr (Or.inr (Or.inr (Or.inr (Or.inr (Or.inl
      (by rw [realMain_terminal_failure env hv he hl hc hpn hn hts.1
        hts.2]))))))
  have hterm : env.terminal = true → env.setupTerminalOk = true := by
    intro ht
    by_cases hs : env.setupTerminalOk = true
    · exact hs
    · rw [Bool.not_eq_true] at hs
      exact absurd ⟨ht, hs⟩ hts
  by_cases hsg : env.panicAt = some PanicPoint.inHandleSignals
  · refine Or.inr (Or.inr (Or.inr (Or.inr (Or.inr (Or.inr (Or.inr (Or.inl
      ⟨env.terminal, ?_⟩)))))))
    rw [realMain_session env hv he hl hc hn hpn hterm,
      realMainTail_panic_signals env (debugAfterFlags env)
        (sessionPre env.terminal) (sessionDefers env.terminal) hsg]
    simp [panicSigTrace]
  by_cases hpx : env.panicAt = some PanicPoint.inProxyStdio
  · refine Or.inr (Or.inr (Or.inr (Or.inr (Or.inr (Or.inr (Or.inr (Or.inr
      (Or.inl ⟨env.terminal, ?_⟩))))))))
    rw [realMain_session env hv he hl hc hn hpn hterm,
      realMainTail_panic_proxy env (debugAfterFlags env)
        (sessionPre env.terminal) (sessionDefers env.terminal) hpx]
    simp [panicProxyTrace]
  refine Or.inr (Or.inr (Or.inr (Or.inr (Or.inr (Or.inr (Or.inr (Or.inr
    (Or.inr ?_))))))))
  rw [realMain_session env hv he hl hc hn hpn hterm]
  refine ⟨env.terminal, ?_⟩
  rcases hw : env.waitResult with u | c
  · refine ⟨[Event.waitErrorLog], Or.inl rfl, ?_⟩
    rw [realMainTail_err env (debugAfterFlags env) (sessionPre env.terminal)
      (sessionDefers env.terminal) u hsg hpx hw]
    cases hb : env.terminal <;>
      simp [hb, sessionTrace, sessionPre, sessionDefers]
  · by_cases hp : env.proxyExitCode = true
    · refine ⟨[Event.proxyExitLog], Or.inr (Or.inl rfl), ?_⟩
      rw [realMainTail_ok_proxy env (debugAfterFlags env)
        (sessionPre env.terminal) (sessionDefers env.terminal) c hsg hpx
        hw hp]
      cases hb : env.terminal <;>
        simp [hb, sessionTrace, sessionPre, sessionDefers]
    · rw [Bool.not_eq_true] at hp
      refine ⟨[], Or.inr (Or.inr rfl), ?_⟩
      rw [realMainTail_ok_silent env (debugAfterFlags env)
        (sessionPre env.terminal) (sessionDefers env.terminal) c hsg hpx
        hw hp]
      cases hb : env.terminal <;>
        simp [hb, sessionTrace, sessionPre, sessionDefers]

lemma wait_reached (env : Env)
    (h : Event.shimWaitCall ∈ (realMain env).trace) :
    env.showVersion = false ∧
    ¬(env.agentAddr = "" ∨ env.container = "" ∨ env.execID = "") ∧
    env.logLevelValid = true ∧ env.createTracerOk = true ∧
    env.newShimOk = true ∧
    (env.terminal = true → env.setupTerminalOk = true) ∧
    env.panicAt = none := by
  by_cases hv : env.showVersion = true
  · rw [realMain_version env hv] at h
    exact absurd h (by simp)
  rw [Bool.not_eq_true] at hv
  by_cases he : env.agentAddr = "" ∨ env.container = "" ∨ env.execID = ""
  · rw [realMain_empty_config env hv he] at h
    exact absurd h (by simp)
  by_cases hl : env.logLevelValid = false
  · rw [realMain_bad_loglevel env hv he hl] at h
    exact absurd h (by simp)
  rw [Bool.not_eq_false] at hl
  by_cases hc : env.createTracerOk = false
  · rw [realMain_tracer_failure env hv he hl hc] at h
    exact absurd h (by simp)
  rw [Bool.not_eq_false] at hc
  by_cases hpn : env.panicAt = some PanicPoint.inNewShim
  · rw [realMain_panic_connect env hv he hl hc hpn] at h
    exact absurd h (by simp)
  by_cases hn : env.newShimOk = false
  · rw [realMain_connect_failure env hv he hl hc hpn hn] at h
    exact absurd h (by simp)
  rw [Bool.not_eq_false] at hn
  have hterm : env.terminal = true → env.setupTerminalOk = true := by
    intro ht
    by_cases hs : env.setupTerminalOk = true
    · exact hs
    rw [Bool.not_eq_true] at hs
    rw [realMain_terminal_failure env hv he hl hc hpn hn ht hs] at h
    exact absurd h (by simp)
  by_cases hsg : env.panicAt = some PanicPoint.inHandleSignals
  · rw [realMain_session env hv he hl hc hn hpn hterm,
      realMainTail_panic_signals env (debugAfterFlags env)
        (sessionPre env.terminal) (sessionDefers env.terminal) hsg] at h
    cases hb : env.terminal <;> simp [hb, sessionPre, sessionDefers] at h
  by_cases hpx : env.panicAt = some PanicPoint.inProxyStdio
  · rw [realMain_session env hv he hl hc hn hpn hterm,
      realMainTail_panic_proxy env (debugAfterFlags env)
        (sessionPre env.terminal) (sessionDefers env.terminal) hpx] at h
    cases hb : env.terminal <;> simp [hb, sessionPre, sessionDefers] at h
  have hpa : env.panicAt = none := by
    rcases hq : env.panicAt with _ | p
    · rfl
    · cases p
      · exact absurd hq hpn
      · exact absurd hq hsg
      · exact absurd hq hpx
  exact ⟨hv, he, hl, hc, hn, hterm, hpa⟩

/-- Claim C1: for every run of the entry point that reaches the wait
phase, the remote wait call (`shim.wait`) is issued only after the
stdio-proxy join barrier (`wg.Wait`) has completed, which itself happens
only after `proxyStdio` started the stdio copy tasks; and the wait call
is issued exactly once. -/
theorem C1_wait_only_after_stdio_join (env : Env)
    (h : Event.shimWaitCall ∈ (realMain env).trace) :
    Event.wgWait ∈ upTo Event.shimWaitCall (realMain env).trace ∧
    Event.proxyStdioCall ∈ upTo Event.wgWait (realMain env).trace ∧
    ((realMain env).trace).count Event.shimWaitCall = 1 := by
  rcases realMain_trace_shape env with
    h1 | h1 | h1 | h1 | h1 | h1 | h1 | ⟨term, h1⟩ | ⟨term, h1⟩ |
    ⟨term, mid, hmid, h1⟩
  · rw [h1] at h; exact absurd h (by simp)
  · rw [h1] at h; exact absurd h (by decide)
  · rw [h1] at h; exact absurd h (by decide)
  · rw [h1] at h; exact absurd h (by decide)
  · rw [h1] at h; exact absurd h (by decide)
  · rw [h1] at h; exact absurd h (by decide)
  · rw [h1] at h; exact absurd h (by decide)
  · cases term <;> rw [h1] at h <;> exact absurd h (by decide)
  · cases term <;> rw [h1] at h <;> exact absurd h (by decide)
  · rcases hmid with hm | hm | hm <;> subst hm <;> cases term <;>
      rw [h1] <;> decide

theorem C1_wait_only_after_stdio_join_witness :
    Event.shimWaitCall ∈ (realMain envOK).trace ∧
    (Event.wgWait ∈ upTo Event.shimWaitCall (realMain envOK).trace ∧
     Event.proxyStdioCall ∈ upTo Event.wgWait (realMain envOK).trace ∧
     ((realMain envOK).trace).count Event.shimWaitCall = 1) :=
  ⟨by decide, C1_wait_only_after_stdio_join envOK (by decide)⟩

/-- Claim C5: on every exit path of the entry point — normal completion,
any failure return after raw mode was acquired, and a process-level panic
unwinding the registered defers — terminal raw mode, once acquired, is
restored exactly once: in every trace the number of restore calls equals
the number of successful raw-mode acquisitions. -/
theorem C5_raw_mode_restored_exactly_once (env : Env) :
    ((realMain env).trace).count Event.restoreTerminalCall =
    ((realMain env).trace).count Event.rawAcquired := by
  rcases realMain_trace_shape env with
    h1 | h1 | h1 | h1 | h1 | h1 | h1 | ⟨term, h1⟩ | ⟨term, h1⟩ |
    ⟨term, mid, hmid, h1⟩
  · rw [h1]; rfl
  · rw [h1]; rfl
  · rw [h1]; rfl
  · rw [h1]; rfl
  · rw [h1]; rfl
  · rw [h1]; rfl
  · rw [h1]; rfl
  · cases term <;> rw [h1] <;> decide
  · cases term <;> rw [h1] <;> decide
  · rcases hmid with hm | hm | hm <;> subst hm <;> cases term <;>
      rw [h1] <;> decide

/-- Claim C7 counterexample: when `createTracer` fails, the logrus
`Fatal` call at `main.go` line 164 logs and then exits the process
directly via `os.Exit(1)` (the `return exitFailure` on line 165 is dead
code), so `stopTracing` at line 237 never runs: this run of `main`
performs tracer shutdown zero times, not exactly once. -/
theorem C7_counterexample :
    envTracerFail.createTracerOk = false ∧
    (realMain envTracerFail).mode = ExitMode.fatal ∧
    (mainRun envTracerFail).count Event.stopTracingCall = 0 ∧
    mainRun envTracerFail =
      [Event.setThreadsEv, Event.announceLog, Event.fatalTracingLog,
        Event.osExitEv exitFailure] := by decide

/-- Claim C7 amended: in every run of `main` in which `realMain` returns
to its caller (the process is neither terminated inside `realMain` by the
fatal tracer-setup log's direct `os.Exit` nor unwound by a panic), tracer
shutdown is performed exactly once, after the final process exit code has
been determined by `realMain` and before the process exits, and never
inside `realMain` itself; when `createTracer` fails, the process exits
without any tracer shutdown. -/
theorem C7_tracer_shutdown_once_on_return (env : Env)
    (h : (realMain env).mode = ExitMode.returned) :
    (mainRun env).count Event.stopTracingCall = 1 ∧
    mainRun env = (realMain env).trace ++
      [Event.stopTracingCall, Event.osExitEv (mainExit env)] ∧
    ((realMain env).trace).count Event.stopTracingCall = 0 := by
  have h0 : ((realMain env).trace).count Event.stopTracingCall = 0 := by
    rcases realMain_trace_shape env with
      h1 | h1 | h1 | h1 | h1 | h1 | h1 | ⟨term, h1⟩ | ⟨term, h1⟩ |
      ⟨term, mid, hmid, h1⟩
    · rw [h1]; rfl
    · rw [h1]; rfl
    · rw [h1]; rfl
    · rw [h1]; rfl
    · rw [h1]; rfl
    · rw [h1]; rfl
    · rw [h1]; rfl
    · cases term <;> rw [h1] <;> decide
    · cases term <;> rw [h1] <;> decide
    · rcases hmid with hm | hm | hm <;> subst hm <;> cases term <;>
        rw [h1] <;> decide
  have h2 : mainRun env = (realMain env).trace ++
      [Event.stopTracingCall, Event.osExitEv (mainExit env)] := by
    simp [mainRun, h, mainExit]
  refine ⟨?_, h2, h0⟩
  rw [h2, List.count_append, h0]
  rfl

theorem C7_tracer_shutdown_once_on_return_witness :
    (realMain envOK).mode = ExitMode.returned ∧
    ((mainRun envOK).count Event.stopTracingCall = 1 ∧
     mainRun envOK = (realMain envOK).trace ++
       [Event.stopTracingCall, Event.osExitEv (mainExit envOK)] ∧
     ((realMain envOK).trace).count Event.stopTracingCall = 0) :=
  ⟨by decide, C7_tracer_shutdown_once_on_return envOK (by decide)⟩

/-- Claim C9: for every run with the version flag set, the entry point
prints the program name and version and returns exit code 0, with no
configuration emptiness check, no logger announcement, no tracer setup
and no connection attempt. -/
theorem C9_version_flag_short_circuits (env : Env)
    (hv : env.showVersion = true) :
    (realMain env).exitCode = exitSuccess ∧
    (realMain env).trace = [Event.setThreadsEv,
      Event.printVersion (shimName ++ " version " ++ env.version)] ∧
    Event.configErrorLog ∉ (realMain env).trace ∧
    Event.announceLog ∉ (realMain env).trace ∧
    Event.fatalTracingLog ∉ (realMain env).trace ∧
    Event.newShimCall ∉ (realMain env).trace := by
  rw [realMain_version env hv]
  refine ⟨rfl, rfl, ?_, ?_, ?_, ?_⟩ <;> simp

theorem C9_version_flag_short_circuits_witness :
    envVersion.showVersion = true ∧
    ((realMain envVersion).exitCode = exitSuccess ∧
     (realMain envVersion).trace = [Event.setThreadsEv,
       Event.printVersion (shimName ++ " version " ++ envVersion.version)] ∧
     Event.configErrorLog ∉ (realMain envVersion).trace ∧
     Event.announceLog ∉ (realMain envVersion).trace ∧
     Event.fatalTracingLog ∉ (realMain envVersion).trace ∧
     Event.newShimCall ∉ (realMain envVersion).trace) :=
  ⟨rfl, C9_version_flag_short_circuits envVersion rfl⟩

/-- Claim C2: for every run in which the remote wait call returns exit
code `n` without error, the final exit code is `n` when exit-code
proxying is enabled and `n` is nonzero, and 0 otherwise (proxying
disabled, or `n = 0`). -/
theorem C2_exit_code_policy (env : Env) (n : Int)
    (h : Event.shimWaitCall ∈ (realMain env).trace)
    (hw : env.waitResult = Except.ok n) :
    (realMain env).exitCode =
      if env.proxyExitCode = true ∧ n ≠ 0 then n else 0 := by
  obtain ⟨hv, he, hl, hc, hn, hterm, hpa⟩ := wait_reached env h
  have hpn : env.panicAt ≠ some PanicPoint.inNewShim := by rw [hpa]; simp
  have hsg : env.panicAt ≠ some PanicPoint.inHandleSignals := by
    rw [hpa]; simp
  have hpx : env.panicAt ≠ some PanicPoint.inProxyStdio := by
    rw [hpa]; simp
  rw [realMain_session env hv he hl hc hn hpn hterm]
  by_cases hp : env.proxyExitCode = true
  · rw [realMainTail_ok_proxy env _ _ _ n hsg hpx hw hp]
    by_cases hz : n = 0 <;> simp [hp, hz, exitSuccess]
  · rw [Bool.not_eq_true] at hp
    rw [realMainTail_ok_silent env _ _ _ n hsg hpx hw hp]
    simp [hp, exitSuccess]

theorem C2_exit_code_policy_witness :
    Event.shimWaitCall ∈ (realMain envOK).trace ∧
    envOK.waitResult = Except.ok 17 ∧
    (realMain envOK).exitCode =
      if envOK.proxyExitCode = true ∧ (17 : Int) ≠ 0 then 17 else 0 :=
  ⟨by decide, rfl, C2_exit_code_policy envOK 17 (by decide) rfl⟩

/-- Claim C6: for every run in which the remote wait call returns an
error, the entry point returns the failure exit code, emits the
wait-failure error log, and does not retry the wait (the wait call
appears exactly once in the trace). -/
theorem C6_wait_error_fails_without_retry (env : Env)
    (h : Event.shimWaitCall ∈ (realMain env).trace)
    (hw : env.waitResult = Except.error ()) :
    (realMain env).exitCode = exitFailure ∧
    Event.waitErrorLog ∈ (realMain env).trace ∧
    ((realMain env).trace).count Event.shimWaitCall = 1 := by
  obtain ⟨hv, he, hl, hc, hn, hterm, hpa⟩ := wait_reached env h
  have hpn : env.panicAt ≠ some PanicPoint.inNewShim := by rw [hpa]; simp
  have hsg : env.panicAt ≠ some PanicPoint.inHandleSignals := by
    rw [hpa]; simp
  have hpx : env.panicAt ≠ some PanicPoint.inProxyStdio := by
    rw [hpa]; simp
  rw [realMain_session env hv he hl hc hn hpn hterm]
  rw [realMainTail_err env _ _ _ () hsg hpx hw]
  cases hb : env.terminal <;> simp [sessionPre, sessionDefers]

theorem C6_wait_error_fails_without_retry_witness :
    Event.shimWaitCall ∈ (realMain envWaitErr).trace ∧
    envWaitErr.waitResult = Except.error () ∧
    ((realMain envWaitErr).exitCode = exitFailure ∧
     Event.waitErrorLog ∈ (realMain envWaitErr).trace ∧
     ((realMain envWaitErr).trace).count Event.shimWaitCall = 1) :=
  ⟨by decide, rfl, C6_wait_error_fails_without_retry envWaitErr (by decide) rfl⟩

/-- Claim C3 counterexample: in the run with the terminal flag set and
stdin not a real terminal (and everything before the terminal step
succeeding), the agent connection attempt (`newShim`, `main.go` line 173)
occurs strictly before raw-mode acquisition is attempted
(`setupTerminal`, line 181), so it is false that no connection attempt to
the agent is made before raw-mode acquisition is attempted. -/
theorem C3_counterexample :
    envTermFail.terminal = true ∧ envTermFail.setupTerminalOk = false ∧
    Event.newShimCall ∈
      upTo Event.setupTerminalCall (realMain envTermFail).trace ∧
    (realMain envTermFail).exitCode = exitFailure := by decide

/-- Claim C3 amended: for every run with the terminal flag set where
stdin is not a real terminal device and raw-mode acquisition is
attempted, the session fails fast with the terminal error log and the
failure exit code; the agent connection attempt precedes the raw-mode
acquisition attempt, and after the terminal failure no stdio proxying, no
signal forwarding and no remote wait call happen. -/
theorem C3_terminal_failure_fails_fast (env : Env)
    (ht : env.terminal = true) (hs : env.setupTerminalOk = false)
    (hatt : Event.setupTerminalCall ∈ (realMain env).trace) :
    (realMain env).exitCode = exitFailure ∧
    Event.terminalErrorLog ∈ (realMain env).trace ∧
    Event.newShimCall ∈ upTo Event.setupTerminalCall (realMain env).trace ∧
    Event.proxyStdioCall ∉ (realMain env).trace ∧
    Event.shimWaitCall ∉ (realMain env).trace ∧
    Event.handleSignalsCall ∉ (realMain env).trace := by
  by_cases hv : env.showVersion = true
  · rw [realMain_version env hv] at hatt
    exact absurd hatt (by simp)
  rw [Bool.not_eq_true] at hv
  by_cases he : env.agentAddr = "" ∨ env.container = "" ∨ env.execID = ""
  · rw [realMain_empty_config env hv he] at hatt
    exact absurd hatt (by simp)
  by_cases hl : env.logLevelValid = false
  · rw [realMain_bad_loglevel env hv he hl] at hatt
    exact absurd hatt (by simp)
  rw [Bool.not_eq_false] at hl
  by_cases hc : env.createTracerOk = false
  · rw [realMain_tracer_failure env hv he hl hc] at hatt
    exact absurd hatt (by simp)
  rw [Bool.not_eq_false] at hc
  by_cases hpn : env.panicAt = some PanicPoint.inNewShim
  · rw [realMain_panic_connect env hv he hl hc hpn] at hatt
    exact absurd hatt (by simp)
  by_cases hn : env.newShimOk = false
  · rw [realMain_connect_failure env hv he hl hc hpn hn] at hatt
    exact absurd hatt (by simp)
  rw [Bool.not_eq_false] at hn
  rw [realMain_terminal_failure env hv he hl hc hpn hn ht hs]
  refine ⟨rfl, by simp, by simp [upTo], by simp, by simp, by simp⟩

theorem C3_terminal_failure_fails_fast_witness :
    envTermFail.terminal = true ∧ envTermFail.setupTerminalOk = false ∧
    Event.setupTerminalCall ∈ (realMain envTermFail).trace ∧
    ((realMain envTermFail).exitCode = exitFailure ∧
     Event.terminalErrorLog ∈ (realMain envTermFail).trace ∧
     Event.newShimCall ∈
       upTo Event.setupTerminalCall (realMain envTermFail).trace ∧
     Event.proxyStdioCall ∉ (realMain envTermFail).trace ∧
     Event.shimWaitCall ∉ (realMain envTermFail).trace ∧
     Event.handleSignalsCall ∉ (realMain envTermFail).trace) :=
  ⟨rfl, rfl, by decide,
    C3_terminal_failure_fails_fast envTermFail rfl rfl (by decide)⟩

/-- Claim C4 counterexample: a run invoked with the version flag and an
empty agent address (the ordinary way of printing the version, since the
agent address defaults to empty) exits with code 0, so it is false that
every run with an empty agent address, container ID or exec ID fails with
a non-zero exit code. -/
theorem C4_counterexample :
    envVersionEmpty.agentAddr = "" ∧
    (realMain envVersionEmpty).exitCode = 0 ∧
    Event.newShimCall ∉ (realMain envVersionEmpty).trace := by decide

/-- Claim C4 amended: for every run in which the version flag is not set
and the agent address, container ID, or exec ID argument is the empty
string, the entry point fails with the failure exit code before any
connection attempt to the agent is made: the run performs nothing beyond
the thread cap and the configuration error log. -/
theorem C4_empty_config_fails_before_connect (env : Env)
    (hv : env.showVersion = false)
    (he : env.agentAddr = "" ∨ env.container = "" ∨ env.execID = "") :
    (realMain env).exitCode = exitFailure ∧
    Event.newShimCall ∉ (realMain env).trace ∧
    (realMain env).trace = [Event.setThreadsEv, Event.configErrorLog] := by
  rw [realMain_empty_config env hv he]
  exact ⟨rfl, by simp, rfl⟩

theorem C4_empty_config_fails_before_connect_witness :
    envEmptyAddr.showVersion = false ∧ envEmptyAddr.agentAddr = "" ∧
    ((realMain envEmptyAddr).exitCode = exitFailure ∧
     Event.newShimCall ∉ (realMain envEmptyAddr).trace ∧
     (realMain envEmptyAddr).trace =
       [Event.setThreadsEv, Event.configErrorLog]) :=
  ⟨rfl, rfl,
    C4_empty_config_fails_before_connect envEmptyAddr rfl (Or.inl rfl)⟩

/-- Claim C8: the shim caps its OS-level execution threads to the fixed
constant 6, independent of the host core count: whenever the GOMAXPROCS
environment variable is unset and the CPU count exceeds `maxThreads`,
`setThreads` sets GOMAXPROCS to `maxThreads`, which is 6. -/
theorem C8_thread_cap (gomaxprocsEnv : String) (numCPU : Nat)
    (hg : gomaxprocsEnv = "") (hn : maxThreads < numCPU) :
    setThreadsResult gomaxprocsEnv numCPU = some 6 ∧ maxThreads = 6 := by
  subst hg
  have hn6 : 6 < numCPU := hn
  refine ⟨?_, rfl⟩
  simp [setThreadsResult, maxThreads, hn6]

theorem C8_thread_cap_witness :
    ("" : String) = "" ∧ maxThreads < 64 ∧
    (setThreadsResult "" 64 = some 6 ∧ maxThreads = 6) :=
  ⟨rfl, by decide, C8_thread_cap "" 64 rfl (by decide)⟩

/-- Claim C10 counterexample: a run invoked with the version flag
together with log level "debug" and the debug flag off returns before
`main.go` lines 131-137, leaving debug mode disabled, so it is false that
in every run a "debug" log level enables debug mode. -/
theorem C10_counterexample :
    envVersionDebug.logLevel = "debug" ∧
    (realMain envVersionDebug).debugVar = false ∧
    (realMain envVersionDebug).crashOnError = false := by decide

/-- Claim C10 amended: for every run in which the version flag is not
set, a log-level argument equal to "debug" enables debug mode regardless
of the debug flag, and whenever debug mode is enabled, crash-on-error
behaviour is enabled as well. -/
theorem C10_debug_level_enables_crash (env : Env)
    (hv : env.showVersion = false) :
    (env.logLevel = "debug" → (realMain env).debugVar = true) ∧
    ((realMain env).debugVar = true → (realMain env).crashOnError = true) := by
  have hvars : (realMain env).debugVar = debugAfterFlags env ∧
      (realMain env).crashOnError = debugAfterFlags env := by
    by_cases he : env.agentAddr = "" ∨ env.container = "" ∨ env.execID = ""
    · rw [realMain_empty_config env hv he]; exact ⟨rfl, rfl⟩
    by_cases hl : env.logLevelValid = false
    · rw [realMain_bad_loglevel env hv he hl]; exact ⟨rfl, rfl⟩
    rw [Bool.not_eq_false] at hl
    by_cases hc : env.createTracerOk = false
    · rw [realMain_tracer_failure env hv he hl hc]; exact ⟨rfl, rfl⟩
    rw [Bool.not_eq_false] at hc
    by_cases hpn : env.panicAt = some PanicPoint.inNewShim
    · rw [realMain_panic_connect env hv he hl hc hpn]; exact ⟨rfl, rfl⟩
    by_cases hn : env.newShimOk = false
    · rw [realMain_connect_failure env hv he hl hc hpn hn]; exact ⟨rfl, rfl⟩
    rw [Bool.not_eq_false] at hn
    by_cases hts : env.terminal = true ∧ env.setupTerminalOk = false
    · rw [realMain_terminal_failure env hv he hl hc hpn hn hts.1 hts.2]
      exact ⟨rfl, rfl⟩
    have hterm : env.terminal = true → env.setupTerminalOk = true := by
      intro ht
      by_cases hs : env.setupTerminalOk = true
      · exact hs
      · rw [Bool.not_eq_true] at hs
        exact absurd ⟨ht, hs⟩ hts
    rw [realMain_session env hv he hl hc hn hpn hterm]
    exact realMainTail_vars env (debugAfterFlags env) _ _
  rw [hvars.1, hvars.2]
  constructor
  · intro hld
    simp [debugAfterFlags, hld]
  · exact fun h => h

theorem C10_debug_level_enables_crash_witness :
    envDebugLevel.showVersion = false ∧
    ((envDebugLevel.logLevel = "debug" →
        (realMain envDebugLevel).debugVar = true) ∧
     ((realMain envDebugLevel).debugVar = true →
        (realMain envDebugLevel).crashOnError = true)) :=
  ⟨rfl, C10_debug_level_enables_crash envDebugLevel rfl⟩

end KataShim
